import Mathlib

/-!
Shallow embedding of the batch and single download pipelines of this
repository.  The repository carries two near-duplicate implementations of
each pipeline, `src/gui_test.py` and `src/gui_downloader.py`; both are
embedded here, with `Test` / `Dl` suffixes naming the file a definition is
translated from.

Modelling conventions:
* The external downloader collaborator (`Downloader.run_download`) is an
  oracle `Nat → DlResult` indexed by the global invocation count; a single
  invocation may return a result object carrying a `returncode`, a result
  object without one, or raise an exception.
* A PyQt signal emission whose argument count matches the declared
  signature is an abstract effect recorded in the run result
  (counts / flags); `time.sleep(d)` is recorded as the duration `d`.
  An emit whose argument count does not match raises `TypeError` at the
  call site (PyQt checks the arity of every emit against the
  `pyqtSignal` declaration).  This matters in gui_downloader.py, whose
  `BatchDownloadThread.update_signal` is declared `pyqtSignal(str, str)`
  (line 109) while the emits at lines 132, 174, 178, 182 and 188 pass a
  single argument: each of those emits raises, and the model follows the
  resulting control flow (see `retryLoopDl` and `runBatchDl`).  All
  emits in gui_test.py and in both `DownloadThread` classes have the
  declared arity.
* File reading is modelled by `Option (List String)`: `none` stands for
  `open`/read raising, `some lines` for the file's lines.
* Python attribute access on `self` follows Python name mangling: the
  expression `self.__output_dir` inside class `BatchDownloadThread`
  (gui_downloader.py line 156) denotes the attribute
  `_BatchDownloadThread__output_dir`, which is never assigned, so
  evaluating that branch raises `AttributeError`; fallible evaluation is
  an `Except`.
* Python strings are Lean `String`; `str.strip` / `str.lower` /
  `"pat" in s` are re-implemented below on `List Char` so that every
  definition evaluates by kernel reduction.
-/

/-- One behaviour of a `run_download` invocation: a result object with a
`returncode` attribute, a result object without one, or a raised
exception. -/
inductive DlResult where
  | ret (code : Int)
  | noRC
  | exc (msg : String)
deriving DecidableEq

/-- Python `str.strip`, left side: drop leading whitespace characters. -/
def dropWsLeft : List Char → List Char
  | [] => []
  | c :: cs => if c.isWhitespace then dropWsLeft cs else c :: cs

/-- Python `line.strip()`: whitespace removed from both ends. -/
def stripStr (s : String) : String :=
  ⟨(dropWsLeft (dropWsLeft s.data).reverse).reverse⟩

/-- Python `s.startswith(h)` for a one-character head: true iff the first
character of the (already stripped) line is that character. -/
def headIsHash : List Char → Bool
  | [] => false
  | c :: _ => c == '#'

/-- The filter of gui_test.py line 121 and gui_downloader.py line 130:
`line.strip() and not line.strip().startswith(hash)`. -/
def keepLine (s : String) : Bool :=
  !s.data.isEmpty && !headIsHash s.data

/-- The list comprehension of gui_test.py line 121 / gui_downloader.py
line 130: strip every line, keep the non-blank non-comment ones. -/
def parseLines (lines : List String) : List String :=
  (lines.map stripStr).filter keepLine

/-- Count of lines that are non-blank after trimming and whose first
non-whitespace character is not a hash mark — the spec's description of
`BatchSummary.totalCount`. -/
def specJobCount (lines : List String) : Nat :=
  (lines.filter (fun l => keepLine (stripStr l))).length

/-- Helper for substring search: does `pat` occur at the head of `s`? -/
def isHeadMatch : List Char → List Char → Bool
  | [], _ => true
  | _ :: _, [] => false
  | c :: cs, d :: ds => c == d && isHeadMatch cs ds

/-- Does `pat` occur anywhere in `s`? -/
def hasSubChars (pat : List Char) : List Char → Bool
  | [] => isHeadMatch pat []
  | d :: ds => isHeadMatch pat (d :: ds) || hasSubChars pat ds

/-- Python `"pat" in url.lower()` (the patterns in the source are already
lower-case literals, so only the url is lowered). -/
def urlHas (url pat : String) : Bool :=
  hasSubChars pat.data (url.data.map Char.toLower)

/-- Output-path templates.  `Path(output_dir) / tail` is modelled as
joining with a forward slash. -/
def playlistTemplate (outputDir : String) : String :=
  outputDir ++ "/{playlist}/{title}.{output-ext}"

/-- Album template, shared by both batch runners. -/
def albumTemplate (outputDir : String) : String :=
  outputDir ++ "/{artist}/{album}/{title}.{output-ext}"

/-- Track (fallback) template of gui_test.py line 147. -/
def trackTemplateTest (outputDir : String) : String :=
  outputDir ++ "/{artist} - {title}.{output-ext}"

/-- Track (fallback) template of gui_downloader.py line 161. -/
def trackTemplateDl (outputDir : String) : String :=
  outputDir ++ "/{title}.{output-ext}"

/-- Extra downloader arguments of the playlist route (gui_test.py
line 142). -/
def playlistArgs : List String :=
  ["--playlist-numbering", "--playlist-retain-track-cover"]

/-- gui_test.py lines 140–148: template selection inside
`BatchDownloadThread.run` — `playlist` is tested first, then `album`,
else track. -/
def batchClassifyTest (outputDir url : String) : String × Option (List String) :=
  if urlHas url "playlist" then (playlistTemplate outputDir, some playlistArgs)
  else if urlHas url "album" then (albumTemplate outputDir, none)
  else (trackTemplateTest outputDir, none)

/-- gui_downloader.py lines 150–162: template selection inside
`BatchDownloadThread.run` — `album` is tested first; the `playlist`
branch evaluates `self.__output_dir`, i.e. the never-assigned attribute
`_BatchDownloadThread__output_dir`, raising `AttributeError` outside any
`try` block. -/
def batchClassifyDl (outputDir url : String) :
    Except String (String × Option (List String)) :=
  if urlHas url "album" then .ok (albumTemplate outputDir, none)
  else if urlHas url "playlist" then
    .error "AttributeError: _BatchDownloadThread__output_dir"
  else .ok (trackTemplateDl outputDir, none)

/-- Observable outcome of one job's retry loop in gui_test.py: final
success flag, number of downloader invocations made for the job, and
accumulated sleep durations. -/
structure JobRun where
  succeeded : Bool
  attemptsUsed : Nat
  sleeps : List Nat
deriving DecidableEq

/-- gui_test.py lines 151–175, `for attempt in range(1, max_retries+1)`.
`remaining` counts the loop iterations still available including the
current one (initially `max_retries`), so Python's `attempt <
max_retries` test is `remaining ≠ 1`, i.e. the `r = 0` test after
destructuring `r + 1`.  `attemptsDone` is the number of completed
attempts, `k` the downloader invocation counter, `sleeps` the sleep
accumulator.  returncode 0 breaks with success; 100 and 101
(`result.returncode in [100, 101]`, line 162) break without success; any
other result sleeps `retry_delay` seconds and retries, or stops after the
last attempt; an exception is caught, breaking if on the last attempt and
otherwise sleeping and retrying. -/
def retryLoopTest (dl : Nat → DlResult) (retryDelay : Nat) :
    Nat → Nat → Nat → List Nat → JobRun × Nat
  | 0, attemptsDone, k, sleeps => (⟨false, attemptsDone, sleeps⟩, k)
  | r + 1, attemptsDone, k, sleeps =>
    let attempt := attemptsDone + 1
    match dl k with
    | .ret c =>
      if c = 0 then (⟨true, attempt, sleeps⟩, k + 1)
      else if c = 100 ∨ c = 101 then (⟨false, attempt, sleeps⟩, k + 1)
      else if r = 0 then (⟨false, attempt, sleeps⟩, k + 1)
      else retryLoopTest dl retryDelay r attempt (k + 1) (sleeps ++ [retryDelay])
    | .noRC =>
      if r = 0 then (⟨false, attempt, sleeps⟩, k + 1)
      else retryLoopTest dl retryDelay r attempt (k + 1) (sleeps ++ [retryDelay])
    | .exc _ =>
      if r = 0 then (⟨false, attempt, sleeps⟩, k + 1)
      else retryLoopTest dl retryDelay r attempt (k + 1) (sleeps ++ [retryDelay])

/-- gui_downloader.py line 26: module-level retry count used by its
`BatchDownloadThread.run`. -/
def MAX_RETRIES : Nat := 5

/-- gui_downloader.py line 27: module-level retry delay in seconds. -/
def RETRY_DELAY : Nat := 30

/-- Observable outcome of one job's retry loop in gui_downloader.py:
the batch success counter after the job (the loop increments it per
returncode-0 attempt, see `retryLoopDl`), downloader invocations made,
and accumulated sleep durations. -/
structure JobRunDl where
  successCount : Nat
  attemptsUsed : Nat
  sleeps : List Nat
deriving DecidableEq

/-- gui_downloader.py lines 164–195, `for attempt in range(1,
MAX_RETRIES+1)`, governed by the module constants `MAX_RETRIES` /
`RETRY_DELAY`, with PyQt emit semantics for the one-argument
`update_signal.emit` calls (the signal is declared `pyqtSignal(str, str)`
at line 109, so those emits raise `TypeError` inside the `try`):
* returncode 0 (lines 172–175): `success += 1` runs (line 173), then the
  one-argument emit at line 174 raises before `break`; the handler at
  lines 191–195 catches it, breaks on the last attempt, otherwise sleeps
  `RETRY_DELAY` and retries.
* returncode 100 / 101 (lines 177–183): the one-argument emits raise
  before `break`; caught and retried the same way — classified failures
  are in fact retried, not stopped.
* any other result (lines 185–189): a non-last attempt sleeps
  (line 186); on the last attempt the one-argument emit at line 188
  raises before the `finished_signal` emit at line 189 — which is
  therefore unreachable — and the handler breaks.
* a downloader exception (lines 191–195): break on the last attempt,
  else sleep and retry.
Net effect: every job runs all `MAX_RETRIES` attempts, sleeps
`RETRY_DELAY` after each non-last attempt, never emits line 189's
finished signal, and adds one to the batch success counter per
returncode-0 attempt (so a job can add more than one). -/
def retryLoopDl (dl : Nat → DlResult) :
    Nat → Nat → Nat → Nat → List Nat → JobRunDl × Nat
  | 0, succ, attemptsDone, k, sleeps => (⟨succ, attemptsDone, sleeps⟩, k)
  | r + 1, succ, attemptsDone, k, sleeps =>
    let attempt := attemptsDone + 1
    let succNow :=
      match dl k with
      | .ret c => if c = 0 then succ + 1 else succ
      | .noRC => succ
      | .exc _ => succ
    if r = 0 then (⟨succNow, attempt, sleeps⟩, k + 1)
    else retryLoopDl dl r succNow attempt (k + 1) (sleeps ++ [RETRY_DELAY])

/-- The `finished_signal.emit(success_count, total)` payload: the
terminal batch summary. -/
structure BatchSummary where
  successCount : Nat
  totalCount : Nat
deriving DecidableEq

/-- Observables of one `BatchDownloadThread.run` execution: the terminal
summary, total downloader invocations, sleep durations in order, total
`finished_signal` emissions, and whether the no-jobs warning or the
file-read-error event was emitted. -/
structure RunResult where
  summary : BatchSummary
  calls : Nat
  sleeps : List Nat
  finishedEmits : Nat
  warnedNoJobs : Bool
  fileError : Bool
deriving DecidableEq

/-- gui_test.py lines 135–175: the per-URL loop.  Classification is
computed per URL (its result is only passed to the downloader
collaborator, which the oracle abstracts); the retry loop runs and the
success counter advances when the job succeeded.  Returns
`(success_count, invocation counter, sleeps)`. -/
def runJobsTest (dl : Nat → DlResult) (outputDir : String)
    (maxRetries retryDelay : Nat) :
    List String → Nat → Nat → List Nat → Nat × Nat × List Nat
  | [], succ, k, sleeps => (succ, k, sleeps)
  | url :: rest, succ, k, sleeps =>
    let _route := batchClassifyTest outputDir url
    let p := retryLoopTest dl retryDelay maxRetries 0 k sleeps
    runJobsTest dl outputDir maxRetries retryDelay rest
      (succ + (if p.1.succeeded then 1 else 0)) p.2 p.1.sleeps

/-- gui_test.py `BatchDownloadThread.run` (lines 109–177): read the
file (an unreadable file emits an error event and `finished_signal(0,0)`),
parse, return `(0,0)` with a warning when no URL survives parsing,
otherwise process every URL in order and emit the terminal
`finished_signal(success_count, total)`. -/
def runBatchTest (contents : Option (List String)) (dl : Nat → DlResult)
    (outputDir : String) (maxRetries retryDelay : Nat) : RunResult :=
  match contents with
  | none => ⟨⟨0, 0⟩, 0, [], 1, false, true⟩
  | some lines =>
    let urls := parseLines lines
    if urls.isEmpty then ⟨⟨0, 0⟩, 0, [], 1, true, false⟩
    else
      let r := runJobsTest dl outputDir maxRetries retryDelay urls 0 0 []
      ⟨⟨r.1, urls.length⟩, r.2.1, r.2.2, 1, false, false⟩

/-- gui_downloader.py lines 144–195: the per-URL loop of its
`BatchDownloadThread.run`.  Classification of a playlist URL raises, the
exception escaping `run` (no handler encloses it); the error carries the
invocation count reached at that point.  Otherwise the retry loop runs,
threading the batch success counter through it (it is incremented inside
the loop body, line 173). -/
def runJobsDl (dl : Nat → DlResult) (outputDir : String) :
    List String → Nat → Nat → List Nat →
    Except (String × Nat) (Nat × Nat × List Nat)
  | [], succ, k, sleeps => .ok (succ, k, sleeps)
  | url :: rest, succ, k, sleeps =>
    match batchClassifyDl outputDir url with
    | .error e => .error (e, k)
    | .ok _route =>
      let p := retryLoopDl dl MAX_RETRIES succ 0 k sleeps
      runJobsDl dl outputDir rest p.1.successCount p.2 p.1.sleeps

/-- gui_downloader.py `BatchDownloadThread.run` (lines 121–197).  The
constructor (line 113) accepts `max_retries` and `retry_delay` but never
stores them; `run` reads the module constants instead, so the two trailing
arguments are unused.  When the file read raises (lines 128–134), the
handler itself passes one argument to the two-argument `update_signal` at
line 132, so `run` crashes with `TypeError` before emitting anything —
the `.error` case, like an uncaught `AttributeError` from the playlist
branch.  A normal completion emits `finished_signal` exactly once
(line 197; the emit at line 189 is unreachable, see `retryLoopDl`). -/
def runBatchDl (contents : Option (List String)) (dl : Nat → DlResult)
    (outputDir : String) (_maxRetriesArg _retryDelayArg : Nat) :
    Except (String × Nat) RunResult :=
  match contents with
  | none => .error ("TypeError: one-argument emit on two-argument update_signal", 0)
  | some lines =>
    let urls := parseLines lines
    if urls.isEmpty then .ok ⟨⟨0, 0⟩, 0, [], 1, true, false⟩
    else
      match runJobsDl dl outputDir urls 0 0 [] with
      | .error e => .error e
      | .ok (succ, k, sleeps) =>
        .ok ⟨⟨succ, urls.length⟩, k, sleeps, 1, false, false⟩

/-- Observables of one `DownloadThread.run` execution: downloader
invocations made, and the `finished_signal` payload if one was emitted at
all (`none` when the thread finishes silently). -/
structure SingleRun where
  calls : Nat
  finished : Option (Bool × String)
deriving DecidableEq

/-- gui_test.py lines 74–86: the shared returncode check after the one
attempt of `DownloadThread.run`.  A returncode outside {0, 100, 101} falls
through every branch of the `if hasattr` chain, emitting nothing. -/
def checkResultTest (dl : DlResult) : SingleRun :=
  match dl with
  | .ret c =>
    if c = 100 then ⟨1, some (false, "Metadata TypeError")⟩
    else if c = 101 then ⟨1, some (false, "No results found")⟩
    else if c = 0 then ⟨1, some (true, "Download successful")⟩
    else ⟨1, none⟩
  | .noRC => ⟨1, some (false, "Download failed")⟩
  | .exc m => ⟨1, some (false, m)⟩

/-- gui_test.py `DownloadThread.run` (lines 37–90).  Types `track_album`,
`playlist` and `search` make exactly one downloader invocation and then
run the shared returncode check; type `file` returns early without
invoking; any other type leaves `result` unbound, so the `hasattr` test
raises and the enclosing handler reports the failure. -/
def singleRunTest (downloadType : String) (dl : DlResult) : SingleRun :=
  if downloadType = "track_album" ∨ downloadType = "playlist" ∨
      downloadType = "search" then
    checkResultTest dl
  else if downloadType = "file" then
    ⟨0, some (false, "Use Batch Download tab for file downloads")⟩
  else ⟨0, some (false, "UnboundLocalError: result")⟩

/-- gui_downloader.py lines 88–100: the returncode check of its
`DownloadThread.run`; same silent fall-through for returncodes outside
{0, 100, 101}. -/
def checkResultDl (dl : DlResult) : SingleRun :=
  match dl with
  | .ret c =>
    if c = 0 then ⟨1, some (true, "Successful Download")⟩
    else if c = 100 then ⟨1, some (false, "Metadata TypeError")⟩
    else if c = 101 then ⟨1, some (false, "Lookup Error")⟩
    else ⟨1, none⟩
  | .noRC => ⟨1, some (false, "Download failed")⟩
  | .exc m => ⟨1, some (false, m)⟩

/-- gui_downloader.py `DownloadThread.run` (lines 44–104).  Types `track`,
`album` and `search` invoke the downloader once; the `playlist` branch
(line 72) evaluates `self.__output_dir`, i.e. the never-assigned
`_DownloadThread__output_dir`, raising `AttributeError` inside the
enclosing `try`, so the failure is reported with zero invocations; type
`file` returns early; an unknown type leaves `result` unbound. -/
def singleRunDl (downloadType : String) (dl : DlResult) : SingleRun :=
  if downloadType = "track" ∨ downloadType = "album" then checkResultDl dl
  else if downloadType = "playlist" then
    ⟨0, some (false, "AttributeError: _DownloadThread__output_dir")⟩
  else if downloadType = "search" then checkResultDl dl
  else if downloadType = "file" then
    ⟨0, some (false, "Use Batch Download tab for file download")⟩
  else ⟨0, some (false, "UnboundLocalError: result")⟩

/-- A downloader stub that always succeeds. -/
def dlOk : Nat → DlResult := fun _ => .ret 0

/-- A downloader stub that always returns a metadata-type error. -/
def dlMeta : Nat → DlResult := fun _ => .ret 100

/-- A downloader stub for the spec's Scenario B: unclassified failure on
the first two invocations, success on the third. -/
def dlScenarioB : Nat → DlResult := fun k => if k < 2 then .noRC else .ret 0

/-- A downloader stub that always returns a result object without a
`returncode` attribute (an unclassified failure). -/
def dlNoRC : Nat → DlResult := fun _ => .noRC

/-- Filtering after stripping counts the same lines as filtering the raw
lines by the stripped test. -/
theorem parseLines_length (lines : List String) :
    (parseLines lines).length = specJobCount lines := by
  induction lines with
  | nil => rfl
  | cons l t ih =>
    unfold parseLines specJobCount at *
    simp only [List.map_cons, List.filter_cons]
    by_cases h : keepLine (stripStr l)
    · simp [h, ih]
    · simp [h, ih]

/-- Each job adds at most one to the success counter of the gui_test.py
batch loop. -/
theorem runJobsTest_success_le (dl : Nat → DlResult) (od : String) (m d : Nat) :
    ∀ (urls : List String) (succ k : Nat) (sleeps : List Nat),
      (runJobsTest dl od m d urls succ k sleeps).1 ≤ succ + urls.length := by
  intro urls
  induction urls with
  | nil => intro succ k sleeps; simp [runJobsTest]
  | cons u t ih =>
    intro succ k sleeps
    simp only [runJobsTest]
    have h := ih (succ + (if (retryLoopTest dl d m 0 k sleeps).1.succeeded then 1 else 0))
      (retryLoopTest dl d m 0 k sleeps).2 (retryLoopTest dl d m 0 k sleeps).1.sleeps
    have hb : (if (retryLoopTest dl d m 0 k sleeps).1.succeeded then 1 else 0) ≤ 1 := by
      split <;> omega
    simp only [List.length_cons]
    omega

/-- Claim C1: for every batch input file and every downloader behaviour
the batch run terminates with its terminal summary emitted exactly once
and never in an unhandled crash.  This holds for the gui_test.py runner
(first conjunct, fully general), but the gui_downloader.py runner crashes
with an uncaught AttributeError on any batch whose first URL contains
`playlist` but not `album`, before a single downloader invocation and
without any terminal summary (second conjunct, the failing input). -/
theorem batch_terminal_summary :
    (∀ (contents : Option (List String)) (dl : Nat → DlResult) (od : String)
        (m d : Nat), (runBatchTest contents dl od m d).finishedEmits = 1)
    ∧ runBatchDl (some ["https://open.spotify.com/playlist/1"]) dlOk "Downloads" 5 30
        = .error ("AttributeError: _BatchDownloadThread__output_dir", 0) := by
  constructor
  · intro contents dl od m d
    cases contents with
    | none => rfl
    | some lines =>
      by_cases h : (parseLines lines).isEmpty
      · simp [runBatchTest, h]
      · simp [runBatchTest, h]
  · rfl

/-- Claim C2 (counterexample): a URL whose lower-cased form contains both
`playlist` and `album` is routed as an album — not as the claimed
playlist route — by the gui_downloader.py batch classifier, which tests
`album` first. -/
theorem playlist_album_order_dl_copy :
    urlHas "https://api.example/albumplaylist" "playlist" = true
    ∧ urlHas "https://api.example/albumplaylist" "album" = true
    ∧ batchClassifyDl "d" "https://api.example/albumplaylist"
        = .ok (albumTemplate "d", none)
    ∧ (albumTemplate "d", (none : Option (List String)))
        ≠ (playlistTemplate "d", some playlistArgs) := by
  refine ⟨rfl, rfl, rfl, ?_⟩
  decide

/-- Claim C2 (amended): for every URL whose lower-cased form contains both
`playlist` and `album`, the gui_test.py batch classifier tests `playlist`
first and selects the playlist route (template with `{playlist}/{title}`
and the two extra playlist arguments), while the gui_downloader.py batch
classifier tests `album` first and selects the album route. -/
theorem playlist_album_priority (outputDir url : String)
    (hp : urlHas url "playlist" = true) (ha : urlHas url "album" = true) :
    batchClassifyTest outputDir url = (playlistTemplate outputDir, some playlistArgs)
    ∧ batchClassifyDl outputDir url = .ok (albumTemplate outputDir, none) := by
  constructor
  · simp [batchClassifyTest, hp]
  · simp [batchClassifyDl, ha]

/-- Claim C2 (witness): the amended claim evaluated on a concrete URL
containing both substrings. -/
theorem playlist_album_priority_witness :
    urlHas "https://open.spotify.com/album/7?ctx=playlist" "playlist" = true
    ∧ urlHas "https://open.spotify.com/album/7?ctx=playlist" "album" = true
    ∧ (batchClassifyTest "Downloads" "https://open.spotify.com/album/7?ctx=playlist"
          = (playlistTemplate "Downloads", some playlistArgs)
       ∧ batchClassifyDl "Downloads" "https://open.spotify.com/album/7?ctx=playlist"
          = .ok (albumTemplate "Downloads", none)) :=
  ⟨rfl, rfl, playlist_album_priority "Downloads" _ rfl rfl⟩

/-- Claim C3: totalCount is supposed to equal the number of non-blank
non-comment lines, and successCount — counting the jobs whose retry loop
ended in success — is supposed to stay at most totalCount.  The
gui_test.py runner satisfies both for every file and every downloader
behaviour (first conjunct).  The gui_downloader.py runner violates them:
with one track URL and an always-succeeding downloader it returns the
summary (5, 1) — the one-argument emit at line 174 raises before `break`,
so the success path is retried and `success` increments once per attempt,
exceeding totalCount (second conjunct, the failing input). -/
theorem batch_summary_counts :
    (∀ (lines : List String) (dl : Nat → DlResult) (od : String) (m d : Nat),
      (runBatchTest (some lines) dl od m d).summary.totalCount = specJobCount lines
      ∧ (runBatchTest (some lines) dl od m d).summary.successCount
          ≤ (runBatchTest (some lines) dl od m d).summary.totalCount)
    ∧ runBatchDl (some ["https://a.example/x"]) dlOk "d" 5 30
        = .ok ⟨⟨5, 1⟩, 5, [30, 30, 30, 30], 1, false, false⟩ := by
  constructor
  · intro lines dl od m d
    have hlen := parseLines_length lines
    cases hp : parseLines lines with
    | nil =>
      rw [hp] at hlen
      simp only [List.length_nil] at hlen
      simp [runBatchTest, hp]
      omega
    | cons a l =>
      rw [hp] at hlen
      simp only [List.length_cons] at hlen
      have hs := runJobsTest_success_le dl od m d (a :: l) 0 0 []
      simp only [List.length_cons, Nat.zero_add] at hs
      simp [runBatchTest, hp]
      omega
  · rfl

/-- Claim C4: a first-attempt classified failure (returncode 100 or 101)
is supposed to stop the retry loop at once.  The gui_test.py loop does:
succeeded = false, attemptsUsed = 1, no sleep, the invocation counter
advanced by exactly one, whatever the retry budget (first conjunct,
general).  The gui_downloader.py loop does not: the one-argument emits at
lines 178 and 182 raise before `break`, the handler catches and retries,
so a constant metadata-error downloader consumes all 5 attempts with four
30-second sleeps (second conjunct, the failing input). -/
theorem classified_failure_stops_immediately (dl : Nat → DlResult)
    (m d k : Nat) (c : Int) (hm : 1 ≤ m) (hc : c = 100 ∨ c = 101)
    (hdl : dl k = .ret c) :
    retryLoopTest dl d m 0 k [] = (⟨false, 1, []⟩, k + 1)
    ∧ retryLoopDl dlMeta MAX_RETRIES 0 0 0 []
        = (⟨0, 5, [30, 30, 30, 30]⟩, 5) := by
  obtain ⟨n, rfl⟩ : ∃ n, m = n + 1 := ⟨m - 1, by omega⟩
  constructor
  · rcases hc with rfl | rfl <;> simp [retryLoopTest, hdl]
  · rfl

/-- Claim C4 (witness): the statement evaluated at a concrete
metadata-error stub with a retry budget of 5. -/
theorem classified_failure_stops_immediately_witness :
    1 ≤ 5 ∧ ((100 : Int) = 100 ∨ (100 : Int) = 101) ∧ dlMeta 0 = .ret 100
    ∧ (retryLoopTest dlMeta 30 5 0 0 [] = (⟨false, 1, []⟩, 1)
       ∧ retryLoopDl dlMeta MAX_RETRIES 0 0 0 []
           = (⟨0, 5, [30, 30, 30, 30]⟩, 5)) :=
  ⟨by omega, Or.inl rfl, rfl,
    classified_failure_stops_immediately dlMeta 5 30 0 100 (by omega) (Or.inl rfl) rfl⟩

/-- Claim C5: Scenario B — one URL, unclassified failure on attempts 1–2,
success on attempt 3, maxRetries = 5, retryDelaySeconds = 20.  The
gui_test.py runner succeeds after exactly 3 invocations with exactly two
20-second pauses, consuming no further attempts (first conjunct).  The
gui_downloader.py runner neither stops after the success nor uses the
supplied delay: the one-argument emit at line 174 raises after every
returncode-0 attempt, so the loop runs 5 invocations with four 30-second
pauses — the module constant, the constructor having discarded the
supplied delay — and returns the summary (3, 1) (second conjunct, the
failing input). -/
theorem scenario_b_retry_then_success :
    runBatchTest (some ["https://song.example/one"]) dlScenarioB "d" 5 20
      = ⟨⟨1, 1⟩, 3, [20, 20], 1, false, false⟩
    ∧ runBatchDl (some ["https://song.example/one"]) dlScenarioB "d" 5 20
      = .ok ⟨⟨3, 1⟩, 5, [30, 30, 30, 30], 1, false, false⟩ := ⟨rfl, rfl⟩

/-- Claim C6: the per-run settings are supposed to govern the retry loop.
The gui_test.py runner obeys the supplied maxRetries = 2 and
retryDelaySeconds = 1 (first conjunct: two attempts, one 1-second pause).
The gui_downloader.py runner, given the same supplied values, makes
MAX_RETRIES = 5 attempts with four RETRY_DELAY = 30 second pauses — the
module constants; its constructor discards the supplied values (second
conjunct, the failing input).  Each run emits the terminal finished
signal once. -/
theorem retry_settings_constants_vs_supplied :
    runBatchTest (some ["https://song.example/one"]) dlNoRC "d" 2 1
      = ⟨⟨0, 1⟩, 2, [1], 1, false, false⟩
    ∧ runBatchDl (some ["https://song.example/one"]) dlNoRC "d" 2 1
      = .ok ⟨⟨0, 1⟩, 5, [30, 30, 30, 30], 1, false, false⟩ := ⟨rfl, rfl⟩

/-- Claim C7: a readable batch file whose parsed job list is empty makes
both runners emit the no-jobs warning, return summary (0,0) immediately,
and invoke the downloader zero times. -/
theorem empty_job_list_is_noop (lines : List String) (dl : Nat → DlResult)
    (od : String) (m d : Nat) (h : parseLines lines = []) :
    runBatchTest (some lines) dl od m d = ⟨⟨0, 0⟩, 0, [], 1, true, false⟩
    ∧ runBatchDl (some lines) dl od m d = .ok ⟨⟨0, 0⟩, 0, [], 1, true, false⟩ := by
  constructor <;> simp [runBatchTest, runBatchDl, h]

/-- Claim C7 (witness): the no-op completion evaluated on a concrete file
of one comment line and one blank line. -/
theorem empty_job_list_is_noop_witness :
    parseLines ["# only a comment", "   "] = []
    ∧ (runBatchTest (some ["# only a comment", "   "]) dlOk "d" 5 30
          = ⟨⟨0, 0⟩, 0, [], 1, true, false⟩
       ∧ runBatchDl (some ["# only a comment", "   "]) dlOk "d" 5 30
          = .ok ⟨⟨0, 0⟩, 0, [], 1, true, false⟩) :=
  ⟨rfl, empty_job_list_is_noop ["# only a comment", "   "] dlOk "d" 5 30 rfl⟩

/-- Claim C8: an unreadable batch file is supposed to abort the batch
with summary (0,0), a file-read-error event and zero downloader
invocations.  The gui_test.py runner does exactly that (first conjunct,
general).  In gui_downloader.py the read-error handler itself crashes:
line 132 passes one argument to the two-argument `update_signal`, raising
`TypeError` inside the `except` clause, so `run` delivers neither the
event nor `finished(0, 0)` (second conjunct, the failing input). -/
theorem unreadable_file_aborts (dl : Nat → DlResult) (od : String) (m d : Nat) :
    runBatchTest none dl od m d = ⟨⟨0, 0⟩, 0, [], 1, false, true⟩
    ∧ runBatchDl none dl od m d
        = .error ("TypeError: one-argument emit on two-argument update_signal", 0) :=
  ⟨rfl, rfl⟩

/-- Claim C9: the single-job runner is supposed to invoke the downloader
exactly once and always deliver a result.  Failing input: a result object
with returncode 42 makes both DownloadThread.run copies emit no finished
signal at all (first two conjuncts), and the gui_downloader.py playlist
branch reports a failure after zero invocations (third conjunct); the
exception-to-failure mapping part of the claim does hold (last
conjunct). -/
theorem single_runner_result_delivery :
    singleRunTest "track_album" (.ret 42) = ⟨1, none⟩
    ∧ singleRunDl "track" (.ret 42) = ⟨1, none⟩
    ∧ singleRunDl "playlist" (.ret 0)
        = ⟨0, some (false, "AttributeError: _DownloadThread__output_dir")⟩
    ∧ singleRunTest "search" (.exc "boom") = ⟨1, some (false, "boom")⟩ :=
  ⟨rfl, rfl, rfl, rfl⟩

/-- Claim C10: batch mode performs no URL validation — an arbitrary
non-Spotify line is routed as a track by both classifiers and the
gui_test.py runner downloads it (first three conjuncts).  But in
gui_downloader.py a line containing `playlist` crashes the run before any
invocation, so with such a line present not every non-comment line gets a
download attempt (last conjunct, the failing input: two URLs, zero
invocations made). -/
theorem no_url_validation_in_batch :
    batchClassifyTest "d" "notaspotifylink!!" = (trackTemplateTest "d", none)
    ∧ batchClassifyDl "d" "notaspotifylink!!" = .ok (trackTemplateDl "d", none)
    ∧ (runBatchTest (some ["notaspotifylink!!"]) dlOk "d" 5 30).summary = ⟨1, 1⟩
    ∧ runBatchDl (some ["https://open.spotify.com/playlist/1", "notaspotifylink!!"])
        dlOk "d" 5 30
      = .error ("AttributeError: _BatchDownloadThread__output_dir", 0) :=
  ⟨rfl, rfl, rfl, rfl⟩
